import Mathlib

/-!
Shallow embedding of the trading-dashboard orchestrator core
(src/src/pages/trading-dashboard.tsx).

Each React state cell becomes an explicit value threaded through pure
functions; each `useCallback` body becomes a Lean function on those values.
Outcomes of the external HTTP calls (ticker fetch, account fetch, oracle
analysis, order submission) are passed in as `Except`-valued parameters,
since the core treats those collaborators as opaque fallible calls.
JavaScript numbers appear only as opaque payload data in the claims below,
so they are modelled by `Int`; wall-clock strings (ids, timestamps) that no
claim inspects are omitted from `LogEntry`.
-/

namespace Aegis

/-- Severity/category of a ledger entry (`TradingLog['type']`). -/
inductive LogType
  | INFO
  | SUCCESS
  | ERROR
  | TRADE
  deriving DecidableEq, Repr

/-- A ledger entry. The source also stamps an id (`Date.now()`) and a
wall-clock timestamp; the claims are about type, message, order and count,
so those ambient-time fields are omitted. -/
structure LogEntry where
  type : LogType
  message : String
  deriving DecidableEq, Repr

/-- `addLog` (source lines 79-87): prepend the new entry and keep the 100
most recent (`[newLog, ...prev].slice(0, 100)`). -/
def addLog (e : LogEntry) (logs : List LogEntry) : List LogEntry :=
  (e :: logs).take 100

/-- The clear-logs button handler (source line 856): `setLogs([])`. -/
def clearLogs (_logs : List LogEntry) : List LogEntry := []

/-- A sequence of emissions folded through `addLog`, earliest emission
first. -/
def runLogs (logs : List LogEntry) (es : List LogEntry) : List LogEntry :=
  es.foldl (fun l e => addLog e l) logs

/-- One point of the price history (`{time, price}`, source line 116). -/
structure PricePoint where
  time : String
  price : Int
  deriving DecidableEq, Repr

/-- `MarketData`: the ticker fields merged with the bounded history
(`{...ticker, history: newHistory}`, source line 117). -/
structure MarketData where
  price : Int
  change24h : Int
  history : List PricePoint
  deriving DecidableEq, Repr

/-- The `/api/market/ticker` response body. -/
structure Ticker where
  price : Int
  change24h : Int
  deriving DecidableEq, Repr

/-- JavaScript `Array.prototype.slice(-n)`: the suffix of the `n` most
recent elements (the whole list when it is shorter than `n`). -/
def takeLast (n : Nat) (l : List α) : List α :=
  l.drop (l.length - n)

/-- `refreshMarket` (source lines 107-123). On a failed fetch the `catch`
touches only the loading flag, so the previous `MarketData` survives; on
success the ticker is republished with `(now, price)` appended to the
history and the result sliced to the last 50 points
(`[...history, {time, price}].slice(-50)`). -/
def refreshMarket (result : Except Unit Ticker) (now : String)
    (prev : Option MarketData) : Option MarketData :=
  match result with
  | .error _ => prev
  | .ok t =>
    let history := (prev.map MarketData.history).getD []
    some { price := t.price, change24h := t.change24h,
           history := takeLast 50 (history ++ [⟨now, t.price⟩]) }

/-- One Market Poller tick: the fetch outcome and its wall-clock label. -/
structure Tick where
  result : Except Unit Ticker
  now : String

/-- A sequence of poller ticks folded through `refreshMarket`. -/
def runTicks (prev : Option MarketData) (ts : List Tick) : Option MarketData :=
  ts.foldl (fun md t => refreshMarket t.result t.now md) prev

/-- The history field of the published snapshot (`[]` before the first
successful fetch, when `marketData` is still `null`). -/
def historyOf : Option MarketData → List PricePoint
  | none => []
  | some m => m.history

/-- The `(time, price)` points of the successful fetches of a tick
sequence, in chronological order. -/
def successPoints : List Tick → List PricePoint
  | [] => []
  | t :: ts =>
    match t.result with
    | .error _ => successPoints ts
    | .ok tk => ⟨t.now, tk.price⟩ :: successPoints ts

/-- Connection status of an external system (source line 76). -/
inductive ConnStatus
  | CONNECTED
  | DISCONNECTED
  | ERROR
  deriving DecidableEq, Repr

/-- A spot or futures balance row (`MexcBalance`). -/
structure MexcBalance where
  asset : String
  total : String
  available : String
  deriving DecidableEq, Repr

/-- Side of an open position (`PositionSide`). -/
inductive PositionSide
  | LONG
  | SHORT
  deriving DecidableEq, Repr

/-- An open position row (`Position`). -/
structure Position where
  id : String
  symbol : String
  side : PositionSide
  leverage : Int
  entryPrice : String
  currentPrice : String
  pnl : Int
  deriving DecidableEq, Repr

/-- An open order row (`MexcOrder`). -/
structure MexcOrder where
  orderId : String
  symbol : String
  side : String
  price : String
  quantity : String
  status : String
  deriving DecidableEq, Repr

/-- A trade-history row (`MexcTrade`). -/
structure MexcTrade where
  id : String
  symbol : String
  side : String
  price : String
  quantity : String
  pnl : Int
  deriving DecidableEq, Repr

/-- The five account collections held in component state
(source lines 62-66). -/
structure AccountState where
  spotBalances : List MexcBalance
  futuresBalances : List MexcBalance
  positions : List Position
  orders : List MexcOrder
  trades : List MexcTrade
  deriving DecidableEq, Repr

/-- The `/api/mexc/account` response body: an optional `error` field and
five optional collections (each read with `|| []` on lines 143-147). -/
structure AccountPayload where
  error : Option String
  spotBalances : Option (List MexcBalance)
  futuresBalances : Option (List MexcBalance)
  positions : Option (List Position)
  orders : Option (List MexcOrder)
  trades : Option (List MexcTrade)
  deriving DecidableEq, Repr

/-- Everything one `refreshAccountData` run reads or writes:
whether the account fetch was issued at all, the five collections, the
exchange connection status, and the ledger. -/
structure SyncResult where
  fetchPerformed : Bool
  account : AccountState
  status : ConnStatus
  logs : List LogEntry
  deriving DecidableEq, Repr

/-- `refreshAccountData` (source lines 125-154). The guard at lines
126-129 rejects an empty API key, an empty secret key or a logged-out
session (all falsy in the source) without fetching. A thrown fetch error
is `Except.error`; a 2xx payload carrying an `error` field is re-thrown at
line 140, so both land in the `catch` that logs and marks `ERROR` without
touching the five collections. -/
def refreshAccountData (apiKey secretKey : String) (isLoggedIn : Bool)
    (fetchResult : Except String AccountPayload)
    (st : AccountState) (logs : List LogEntry) : SyncResult :=
  if apiKey = "" ∨ secretKey = "" ∨ isLoggedIn = false then
    ⟨false, st, ConnStatus.DISCONNECTED, logs⟩
  else
    match fetchResult with
    | .error e =>
      ⟨true, st, ConnStatus.ERROR,
        addLog ⟨LogType.ERROR, "MEXC sync error: " ++ e⟩ logs⟩
    | .ok data =>
      match data.error with
      | some e =>
        ⟨true, st, ConnStatus.ERROR,
          addLog ⟨LogType.ERROR, "MEXC sync error: " ++ e⟩ logs⟩
      | none =>
        ⟨true,
         ⟨data.spotBalances.getD [], data.futuresBalances.getD [],
          data.positions.getD [], data.orders.getD [], data.trades.getD []⟩,
         ConnStatus.CONNECTED,
         addLog ⟨LogType.SUCCESS, "MEXC account synced successfully"⟩ logs⟩

/-- The oracle's action vocabulary. Modelled from the spec: the
`TradeAction` type lives in `@shared/schema`, which is not under `src/`;
the spec fixes the vocabulary as LONG, SHORT, CLOSE, WAIT with WAIT the
no-op, and the source compares only against `'WAIT'`. -/
inductive TradeAction
  | LONG
  | SHORT
  | CLOSE
  | WAIT
  deriving DecidableEq, Repr

/-- String rendering of an action, as interpolated into log messages. -/
def TradeAction.str : TradeAction → String
  | .LONG => "LONG"
  | .SHORT => "SHORT"
  | .CLOSE => "CLOSE"
  | .WAIT => "WAIT"

/-- The oracle's decision (`/api/ai/analyze` response). -/
structure Decision where
  action : TradeAction
  confidence : Nat
  reason : String
  deriving DecidableEq, Repr

/-- The persisted settings record (source lines 25-40, `defaultSettings`
shape). -/
structure AppSettings where
  aiProvider : String
  geminiApiKey : String
  openaiApiKey : String
  deepseekApiKey : String
  mexcApiKey : String
  mexcSecretKey : String
  tradingSymbol : String
  defaultLeverage : Int
  riskPercent : Int
  isAutoTrading : Bool
  intervalMinutes : Int
  isLiveMode : Bool
  supabaseUrl : String
  supabaseAnonKey : String
  deriving DecidableEq, Repr

/-- `defaultSettings` (source lines 25-40). -/
def defaultSettings : AppSettings :=
  ⟨"gemini", "", "", "", "", "", "BTCUSDT", 10, 2, false, 1, false, "", ""⟩

/-- Inputs of one `runTradingCycle` invocation: the settings snapshot, the
market snapshot, the open positions (from which line 171 derives
`currentPositionSide` for the oracle request), the oracle outcome if
`/api/ai/analyze` is issued, and the `/api/mexc/trade` outcome if an order
is submitted. The request payloads themselves are data handed to the
opaque collaborators and are absorbed into those two outcomes. -/
structure CycleEnv where
  settings : AppSettings
  marketData : Option MarketData
  positions : List Position
  oracleResult : Except String Decision
  tradeResult : Except String Unit

/-- Observable effects of one `runTradingCycle` invocation. -/
structure CycleResult where
  oracleInvoked : Bool
  tradeInvoked : Bool
  refreshTriggered : Bool
  lastAction : Option Decision
  logsEmitted : List LogEntry
  deriving DecidableEq, Repr

/-- The TRADE log message of line 178:
`AI decision: ${decision.action} (${decision.confidence}%)`. -/
def tradeLogMsg (d : Decision) : String :=
  "AI decision: " ++ d.action.str ++ " (" ++ toString d.confidence ++ "%)"

/-- `runTradingCycle` (source lines 156-197). Control flow of the source:
early return unless auto-trading is on and a market snapshot exists; a
throw from the oracle call jumps to the `catch` (ERROR log, prior
`lastAction` untouched); on a decision, `setLastAction` runs
unconditionally, a non-WAIT action logs TRADE, and only in live mode is
`/api/mexc/trade` awaited — a successful await reaches
`refreshAccountData()`, while a throw from the submission jumps to the
same `catch`, skipping the refresh. `logsEmitted` lists entries in
emission order. -/
def runTradingCycle (env : CycleEnv) (prevAction : Option Decision) :
    CycleResult :=
  if env.settings.isAutoTrading = false ∨ env.marketData = none then
    ⟨false, false, false, prevAction, []⟩
  else
    match env.oracleResult with
    | .error msg =>
      ⟨true, false, false, prevAction,
        [⟨LogType.ERROR, "AI analysis failed: " ++ msg⟩]⟩
    | .ok d =>
      if d.action = TradeAction.WAIT then
        ⟨true, false, false, some d, []⟩
      else if env.settings.isLiveMode = false then
        ⟨true, false, false, some d, [⟨LogType.TRADE, tradeLogMsg d⟩]⟩
      else
        match env.tradeResult with
        | .ok _ =>
          ⟨true, true, true, some d, [⟨LogType.TRADE, tradeLogMsg d⟩]⟩
        | .error e =>
          ⟨true, true, false, some d,
            [⟨LogType.TRADE, tradeLogMsg d⟩,
             ⟨LogType.ERROR, "AI analysis failed: " ++ e⟩]⟩

/-- Concurrency bookkeeping for the auto-trading scheduler:
`inFlight` counts `runTradingCycle` invocations that passed the guard and
whose awaited calls have not yet completed; `isAnalyzing` mirrors the
React flag set at line 159. -/
structure SchedulerState where
  inFlight : Nat
  isAnalyzing : Bool
  deriving DecidableEq, Repr

/-- One firing of the auto-trading `setInterval` timer (source lines
213-220): it invokes `runTradingCycle` unconditionally, and the cycle's
own guard (line 157) reads only `isAutoTrading` and `marketData` — neither
`inFlight` nor `isAnalyzing` — so a still-pending previous invocation does
not prevent a new one from starting. -/
def timerFire (settings : AppSettings) (marketData : Option MarketData)
    (s : SchedulerState) : SchedulerState :=
  if settings.isAutoTrading = true ∧ marketData ≠ none then
    { inFlight := s.inFlight + 1, isAnalyzing := true }
  else s

/-- Completion of a pending invocation's awaited calls: it leaves flight
and clears the flag (lines 192/195). -/
def cycleComplete (s : SchedulerState) : SchedulerState :=
  { inFlight := s.inFlight - 1, isAnalyzing := false }

/-- JavaScript `parseInt(value)` on the decimal strings of a numeric input
field: skip leading whitespace, an optional sign, then the longest leading
digit run; `NaN` (modelled as `none`) when no digit follows. -/
def parsedDigits (cs : List Char) : Option Nat :=
  let ds := cs.takeWhile Char.isDigit
  if ds.isEmpty then none
  else some (ds.foldl (fun acc c => acc * 10 + (c.toNat - 48)) 0)

/-- See `parsedDigits`; the sign and whitespace handling of `parseInt`. -/
def parseIntJS (s : String) : Option Int :=
  match s.toList.dropWhile
      (fun c => c == ' ' || c == '\t' || c == '\n' || c == '\r') with
  | '-' :: rest => (parsedDigits rest).map (fun n => -(n : Int))
  | '+' :: rest => (parsedDigits rest).map (fun n => (n : Int))
  | cs => (parsedDigits cs).map (fun n => (n : Int))

/-- JavaScript `x || 1` applied to `parseInt`'s result: both `NaN` and `0`
are falsy and become 1. -/
def jsOr1 : Option Int → Int
  | none => 1
  | some n => if n = 0 then 1 else n

/-- The leverage input handler (source line 759):
`Math.min(125, Math.max(1, parseInt(v) || 1))`. -/
def leverageOnChange (v : String) : Int :=
  min 125 (max 1 (jsOr1 (parseIntJS v)))

/-- The risk-percent input handler (source line 771):
`Math.min(100, Math.max(1, parseInt(v) || 1))`. -/
def riskPercentOnChange (v : String) : Int :=
  min 100 (max 1 (jsOr1 (parseIntJS v)))

/-- The interval-minutes input handler (source line 744):
`Math.max(1, parseInt(v) || 1)`. -/
def intervalOnChange (v : String) : Int :=
  max 1 (jsOr1 (parseIntJS v))

/-! Concrete fixtures used by witnesses and counterexamples. -/

/-- A minimal published market snapshot. -/
def md0 : MarketData := ⟨100, 0, []⟩

/-- An oracle decision to go long with 80% confidence (the spec's
scenario input). -/
def dLong : Decision := ⟨TradeAction.LONG, 80, "momentum"⟩

/-- The spec's simulation scenario settings: auto-trading on, live mode
off, symbol BTCUSDT, interval 1. -/
def simSettings : AppSettings :=
  { defaultSettings with isAutoTrading := true }

/-- Live-mode settings with credentials present. -/
def liveSettings : AppSettings :=
  { defaultSettings with
    isAutoTrading := true
    isLiveMode := true
    mexcApiKey := "k"
    mexcSecretKey := "s" }

/-- A simulation-mode cycle whose oracle answers LONG/80. -/
def simEnv : CycleEnv := ⟨simSettings, some md0, [], Except.ok dLong, Except.ok ()⟩

/-- A live cycle whose oracle answers LONG/80 but whose order submission
throws. -/
def failTradeEnv : CycleEnv :=
  ⟨liveSettings, some md0, [], Except.ok dLong, Except.error "network error"⟩

/-- A live cycle whose oracle call itself throws. -/
def oracleFailEnv : CycleEnv :=
  ⟨simSettings, some md0, [], Except.error "timeout", Except.ok ()⟩

/-- A non-empty pre-call account state. -/
def st0 : AccountState := ⟨[⟨"USDT", "5", "5"⟩], [], [], [], []⟩

/-- A successful account payload that omits every collection. -/
def emptyPayload : AccountPayload := ⟨none, none, none, none, none, none⟩

/-! Helper lemmas about the two bounded windows. -/

lemma take_append_take (n : Nat) (a b : List α) :
    (a ++ b.take n).take n = (a ++ b).take n := by
  rw [List.take_append_eq_append_take, List.take_append_eq_append_take,
    List.take_take, Nat.min_eq_left (Nat.sub_le n a.length)]

lemma takeLast_eq_reverse (n : Nat) (l : List α) :
    takeLast n l = (l.reverse.take n).reverse := by
  simp [takeLast, List.take_reverse]

lemma takeLast_absorb (n : Nat) (a b : List α) :
    takeLast n (takeLast n a ++ b) = takeLast n (a ++ b) := by
  simp only [takeLast_eq_reverse, List.reverse_append, List.reverse_reverse]
  rw [take_append_take]

lemma takeLast_length_le (n : Nat) (l : List α) :
    (takeLast n l).length ≤ n := by
  simp [takeLast]
  omega

lemma takeLast_of_length_le {n : Nat} {l : List α} (h : l.length ≤ n) :
    takeLast n l = l := by
  simp [takeLast, Nat.sub_eq_zero_of_le h]

lemma runTicks_history (ts : List Tick) :
    ∀ prev : Option MarketData, (historyOf prev).length ≤ 50 →
      historyOf (runTicks prev ts) =
        takeLast 50 (historyOf prev ++ successPoints ts) := by
  induction ts with
  | nil =>
    intro prev h
    simp [runTicks, successPoints, takeLast_of_length_le h]
  | cons t ts ih =>
    intro prev h
    have hstep : runTicks prev (t :: ts) =
        runTicks (refreshMarket t.result t.now prev) ts := rfl
    rw [hstep]
    cases hres : t.result with
    | error u =>
      have hsame : refreshMarket (Except.error u) t.now prev = prev := rfl
      rw [hsame, ih prev h]
      simp [successPoints, hres]
    | ok tk =>
      have hhist : historyOf (refreshMarket (Except.ok tk) t.now prev) =
          takeLast 50 (historyOf prev ++ [⟨t.now, tk.price⟩]) := by
        cases prev <;> simp [refreshMarket, historyOf]
      rw [ih _ (by rw [hhist]; exact takeLast_length_le 50 _), hhist,
        takeLast_absorb]
      simp [successPoints, hres, List.append_assoc]

lemma runLogs_eq (es : List LogEntry) :
    ∀ logs : List LogEntry, logs.length ≤ 100 →
      runLogs logs es = (es.reverse ++ logs).take 100 := by
  induction es with
  | nil =>
    intro logs h
    simp [runLogs, List.take_of_length_le h]
  | cons e es ih =>
    intro logs h
    have hstep : runLogs logs (e :: es) = runLogs (addLog e logs) es := rfl
    rw [hstep, ih (addLog e logs) (List.length_take_le 100 _)]
    show (es.reverse ++ (e :: logs).take 100).take 100 = _
    rw [take_append_take]
    simp [List.append_assoc]

/-- C5: across every sequence of Market Poller ticks starting from the
initial `null` snapshot, the price history is exactly the last 50
successful fetches in chronological order (appended at the end, oldest
evicted first), hence never longer than 50; and a failed fetch returns the
prior snapshot unchanged. -/
theorem c5_price_history_window :
    (∀ ts : List Tick, historyOf (runTicks none ts) = takeLast 50 (successPoints ts)) ∧
    (∀ ts : List Tick, (historyOf (runTicks none ts)).length ≤ 50) ∧
    (∀ (now : String) (prev : Option MarketData),
      refreshMarket (Except.error ()) now prev = prev) := by
  have h1 : ∀ ts : List Tick,
      historyOf (runTicks none ts) = takeLast 50 (successPoints ts) := by
    intro ts
    simpa [historyOf] using runTicks_history ts none (by simp [historyOf])
  refine ⟨h1, fun ts => ?_, fun now prev => rfl⟩
  rw [h1]
  exact takeLast_length_le 50 _

/-- C6: across every sequence of log emissions starting from the empty
ledger, the ledger is the reverse of the emission sequence truncated to
100 (newest first, length ≤ 100), and the clear operation empties it. -/
theorem c6_event_ledger_window :
    (∀ es : List LogEntry, runLogs [] es = es.reverse.take 100) ∧
    (∀ es : List LogEntry, (runLogs [] es).length ≤ 100) ∧
    (∀ logs : List LogEntry, clearLogs logs = []) := by
  have h1 : ∀ es : List LogEntry, runLogs [] es = es.reverse.take 100 := by
    intro es
    simpa using runLogs_eq es [] (by simp)
  refine ⟨h1, fun es => ?_, fun logs => rfl⟩
  rw [h1]
  exact List.length_take_le 100 _

/-- C3 (claim is right, the code violates it): two firings of the
auto-trading timer with no completion in between — the configured interval
elapsing while the first cycle's oracle call is still pending — leave two
cycles in flight, because neither the `setInterval` callback nor the guard
of `runTradingCycle` consults any in-flight marker (`isAnalyzing` is
written but never read). The spec requires overlap ≤ 1. -/
theorem c3_overlap_two_in_flight :
    (timerFire simSettings (some md0)
      (timerFire simSettings (some md0) ⟨0, false⟩)).inFlight = 2 := by
  decide

/-- C2 counterexample: a live-mode cycle that submits an order whose
submission throws reaches the `catch` before `refreshAccountData()`, so no
out-of-band refresh is triggered, contradicting "regardless of whether the
submission succeeds or fails". -/
theorem c2_counterexample :
    (runTradingCycle failTradeEnv none).tradeInvoked = true ∧
      (runTradingCycle failTradeEnv none).refreshTriggered = false := by
  decide

/-- C2 amended: the out-of-band Account Synchronizer refresh is triggered
exactly when an order submission is attempted and the submission succeeds;
a failed submission jumps to the cycle's `catch` (logging an error) and
skips the refresh. -/
theorem c2_refresh_iff_submission_ok (env : CycleEnv) (prev : Option Decision) :
    (runTradingCycle env prev).refreshTriggered = true ↔
      (runTradingCycle env prev).tradeInvoked = true ∧
        env.tradeResult = Except.ok () := by
  obtain ⟨st, md, pos, od, td⟩ := env
  by_cases hauto : st.isAutoTrading = false
  · simp [runTradingCycle, hauto]
  · cases md with
    | none => simp [runTradingCycle]
    | some m =>
      cases od with
      | error msg => simp [runTradingCycle, hauto]
      | ok d =>
        by_cases hwait : d.action = TradeAction.WAIT
        · simp [runTradingCycle, hauto, hwait]
        · by_cases hlive : st.isLiveMode = false
          · simp [runTradingCycle, hauto, hwait, hlive]
          · cases td with
            | ok u => simp [runTradingCycle, hauto, hwait, hlive]
            | error e => simp [runTradingCycle, hauto, hwait, hlive]

/-- C1: within one decision cycle, the order-submission call is issued
exactly when auto-trading is on, live mode is on, and the oracle was
reached and returned a decision whose action is not WAIT; in particular a
simulation-mode cycle with a non-WAIT decision emits exactly the TRADE log
entry and submits nothing. -/
theorem c1_trade_executor_iff (env : CycleEnv) (prev : Option Decision) :
    ((runTradingCycle env prev).tradeInvoked = true ↔
      env.settings.isAutoTrading = true ∧ env.settings.isLiveMode = true ∧
        (runTradingCycle env prev).oracleInvoked = true ∧
        ∃ d : Decision, env.oracleResult = Except.ok d ∧
          d.action ≠ TradeAction.WAIT) ∧
    (∀ d : Decision, env.settings.isAutoTrading = true →
      env.marketData ≠ none → env.oracleResult = Except.ok d →
      d.action ≠ TradeAction.WAIT → env.settings.isLiveMode = false →
      (runTradingCycle env prev).logsEmitted = [⟨LogType.TRADE, tradeLogMsg d⟩] ∧
        (runTradingCycle env prev).tradeInvoked = false) := by
  obtain ⟨st, md, pos, od, td⟩ := env
  constructor
  · by_cases hauto : st.isAutoTrading = false
    · simp [runTradingCycle, hauto]
    · cases md with
      | none => simp [runTradingCycle]
      | some m =>
        cases od with
        | error msg => simp [runTradingCycle, hauto]
        | ok d =>
          by_cases hwait : d.action = TradeAction.WAIT
          · simp [runTradingCycle, hauto, hwait]
          · by_cases hlive : st.isLiveMode = false
            · simp [runTradingCycle, hauto, hwait, hlive]
            · cases td with
              | ok u =>
                simp only [Bool.not_eq_false] at hauto hlive
                simp [runTradingCycle, hauto, hwait, hlive]
              | error e =>
                simp only [Bool.not_eq_false] at hauto hlive
                simp [runTradingCycle, hauto, hwait, hlive]
  · intro d hauto hmd hor hwait hlive
    dsimp only at hauto hmd hor hlive
    cases md with
    | none => exact absurd rfl hmd
    | some m =>
      cases hor
      simp [runTradingCycle, hauto, hwait, hlive]

/-- C1 witness: the spec's simulation scenario — auto-trading on, live
mode off, oracle returns LONG/80 — emits exactly the TRADE entry and does
not submit an order. -/
theorem c1_simulation_scenario :
    (runTradingCycle simEnv none).logsEmitted =
        [⟨LogType.TRADE, tradeLogMsg dLong⟩] ∧
      (runTradingCycle simEnv none).tradeInvoked = false :=
  (c1_trade_executor_iff simEnv none).2 dLong rfl (by decide) rfl
    (by decide) rfl

/-- C7: a cycle whose oracle call throws emits the ERROR entry, leaves the
previous decision in place, submits no order, and triggers no refresh. -/
theorem c7_oracle_failure_ends_cycle (env : CycleEnv) (prev : Option Decision)
    (msg : String) (hauto : env.settings.isAutoTrading = true)
    (hmd : env.marketData ≠ none)
    (hor : env.oracleResult = Except.error msg) :
    (runTradingCycle env prev).lastAction = prev ∧
      (runTradingCycle env prev).tradeInvoked = false ∧
      (runTradingCycle env prev).refreshTriggered = false ∧
      (runTradingCycle env prev).logsEmitted =
        [⟨LogType.ERROR, "AI analysis failed: " ++ msg⟩] := by
  obtain ⟨st, md, pos, od, td⟩ := env
  dsimp only at hauto hmd hor
  cases md with
  | none => exact absurd rfl hmd
  | some m =>
    cases hor
    simp [runTradingCycle, hauto]

/-- C7 witness at a concrete failing-oracle cycle. -/
theorem c7_oracle_failure_example :
    (runTradingCycle oracleFailEnv (some dLong)).lastAction = some dLong ∧
      (runTradingCycle oracleFailEnv (some dLong)).tradeInvoked = false ∧
      (runTradingCycle oracleFailEnv (some dLong)).refreshTriggered = false ∧
      (runTradingCycle oracleFailEnv (some dLong)).logsEmitted =
        [⟨LogType.ERROR, "AI analysis failed: " ++ "timeout"⟩] :=
  c7_oracle_failure_ends_cycle oracleFailEnv (some dLong) "timeout" rfl
    (by decide) rfl

/-- C4: when a sync that actually reaches the exchange fails — the fetch
throws, or a 2xx payload carries an `error` field — all five collections
keep their pre-call values, the status becomes ERROR, and an ERROR log
entry carrying the failure reason is appended. -/
theorem c4_sync_failure_preserves_account
    (apiKey secretKey : String) (fetchResult : Except String AccountPayload)
    (st : AccountState) (logs : List LogEntry) (reason : String)
    (hk : apiKey ≠ "") (hs : secretKey ≠ "")
    (hfail : fetchResult = Except.error reason ∨
      ∃ payload : AccountPayload, fetchResult = Except.ok payload ∧
        payload.error = some reason) :
    (refreshAccountData apiKey secretKey true fetchResult st logs).account = st ∧
      (refreshAccountData apiKey secretKey true fetchResult st logs).status =
        ConnStatus.ERROR ∧
      (refreshAccountData apiKey secretKey true fetchResult st logs).logs =
        addLog ⟨LogType.ERROR, "MEXC sync error: " ++ reason⟩ logs := by
  rcases hfail with h | ⟨payload, h, herr⟩
  · subst h
    simp [refreshAccountData, hk, hs]
  · subst h
    simp [refreshAccountData, hk, hs, herr]

/-- C4 witness: a thrown fetch at a concrete non-empty account state. -/
theorem c4_sync_failure_example :
    (refreshAccountData "k" "s" true (Except.error "timeout") st0 []).account = st0 ∧
      (refreshAccountData "k" "s" true (Except.error "timeout") st0 []).status =
        ConnStatus.ERROR ∧
      (refreshAccountData "k" "s" true (Except.error "timeout") st0 []).logs =
        addLog ⟨LogType.ERROR, "MEXC sync error: " ++ "timeout"⟩ [] :=
  c4_sync_failure_preserves_account "k" "s" (Except.error "timeout") st0 []
    "timeout" (by decide) (by decide) (Or.inl rfl)

/-- C8: with an empty API key, an empty secret key, or no authenticated
session, the synchronizer issues no fetch, reports DISCONNECTED, and
leaves the ledger (hence its ERROR entries) and the account untouched. -/
theorem c8_missing_credentials_disconnect
    (apiKey secretKey : String) (isLoggedIn : Bool)
    (fetchResult : Except String AccountPayload)
    (st : AccountState) (logs : List LogEntry)
    (h : apiKey = "" ∨ secretKey = "" ∨ isLoggedIn = false) :
    (refreshAccountData apiKey secretKey isLoggedIn fetchResult st logs).fetchPerformed
        = false ∧
      (refreshAccountData apiKey secretKey isLoggedIn fetchResult st logs).status =
        ConnStatus.DISCONNECTED ∧
      (refreshAccountData apiKey secretKey isLoggedIn fetchResult st logs).logs =
        logs ∧
      (refreshAccountData apiKey secretKey isLoggedIn fetchResult st logs).account =
        st := by
  simp [refreshAccountData, h]

/-- C8 witness: empty credentials at a concrete state. -/
theorem c8_missing_credentials_example :
    (refreshAccountData "" "" true (Except.error "ignored") st0 []).fetchPerformed
        = false ∧
      (refreshAccountData "" "" true (Except.error "ignored") st0 []).status =
        ConnStatus.DISCONNECTED ∧
      (refreshAccountData "" "" true (Except.error "ignored") st0 []).logs = [] ∧
      (refreshAccountData "" "" true (Except.error "ignored") st0 []).account =
        st0 :=
  c8_missing_credentials_disconnect "" "" true (Except.error "ignored") st0 []
    (Or.inl rfl)

/-- C9: a successful sync replaces every one of the five collections with
the payload's value, a missing collection becoming the empty list; the
resulting account is a function of the payload alone, so no pre-call
collection survives a success. -/
theorem c9_success_wholesale_replaces
    (apiKey secretKey : String) (payload : AccountPayload)
    (st : AccountState) (logs : List LogEntry)
    (hk : apiKey ≠ "") (hs : secretKey ≠ "") (herr : payload.error = none) :
    (refreshAccountData apiKey secretKey true (Except.ok payload) st logs).account =
        ⟨payload.spotBalances.getD [], payload.futuresBalances.getD [],
          payload.positions.getD [], payload.orders.getD [],
          payload.trades.getD []⟩ ∧
      ∀ st₂ : AccountState,
        (refreshAccountData apiKey secretKey true (Except.ok payload) st₂ logs).account =
          (refreshAccountData apiKey secretKey true (Except.ok payload) st logs).account := by
  constructor
  · simp [refreshAccountData, hk, hs, herr]
  · intro st₂
    simp [refreshAccountData, hk, hs, herr]

/-- C9 witness: a successful payload that omits all five collections wipes
a non-empty pre-call state to five empty lists. -/
theorem c9_success_example :
    (refreshAccountData "k" "s" true (Except.ok emptyPayload) st0 []).account =
        ⟨emptyPayload.spotBalances.getD [], emptyPayload.futuresBalances.getD [],
          emptyPayload.positions.getD [], emptyPayload.orders.getD [],
          emptyPayload.trades.getD []⟩ ∧
      ∀ st₂ : AccountState,
        (refreshAccountData "k" "s" true (Except.ok emptyPayload) st₂ []).account =
          (refreshAccountData "k" "s" true (Except.ok emptyPayload) st0 []).account :=
  c9_success_wholesale_replaces "k" "s" emptyPayload st0 [] (by decide)
    (by decide) rfl

/-- C10: for every input string the leverage handler lands in [1, 125],
the risk-percent handler in [1, 100], the interval handler at ≥ 1, and a
string with no parsable leading integer (JavaScript `parseInt` = NaN)
yields 1 from all three. -/
theorem c10_settings_handlers_clamped (v : String) :
    (1 ≤ leverageOnChange v ∧ leverageOnChange v ≤ 125) ∧
      (1 ≤ riskPercentOnChange v ∧ riskPercentOnChange v ≤ 100) ∧
      1 ≤ intervalOnChange v ∧
      (parseIntJS v = none →
        leverageOnChange v = 1 ∧ riskPercentOnChange v = 1 ∧
          intervalOnChange v = 1) := by
  refine ⟨⟨?_, ?_⟩, ⟨?_, ?_⟩, ?_, fun h => ?_⟩
  · exact le_min (by norm_num) (le_max_left 1 _)
  · exact min_le_left 125 _
  · exact le_min (by norm_num) (le_max_left 1 _)
  · exact min_le_left 100 _
  · exact le_max_left 1 _
  · simp [leverageOnChange, riskPercentOnChange, intervalOnChange, h, jsOr1]

/-- C10 witness: a non-numeric string maps to 1 under all three handlers,
inside their documented bounds. -/
theorem c10_settings_handlers_example :
    (1 ≤ leverageOnChange "abc" ∧ leverageOnChange "abc" ≤ 125) ∧
      leverageOnChange "abc" = 1 ∧ riskPercentOnChange "abc" = 1 ∧
      intervalOnChange "abc" = 1 :=
  ⟨(c10_settings_handlers_clamped "abc").1,
    (c10_settings_handlers_clamped "abc").2.2.2 (by decide)⟩

end Aegis
